import Mathlib

/- Verification development for the crm-query-assistant repository
   (src/api/query.py): a shallow embedding of the request handler, the
   Airtable search pipeline, the canned/LLM SQL generation, and the
   response construction, with theorems checking the repository's
   specification sentence by sentence.

   Modelling conventions:
   * JSON values are the inductive `JVal` (numbers as `Int`; JSON floats
     do not occur in the inputs the claims quantify over).
   * Python dicts are association lists in insertion order; assignment
     replaces the first matching key or appends.
   * Python exceptions are `Except Unit`; a surrounding try/except is the
     corresponding `match`/catch.
   * External collaborators (OpenAI, SQL Server, pyairtable) are opaque:
     their outcomes are fields of `Env`, and each actual call is recorded
     in a `Call` trace so that "no external call is made" is provable.
   * Python `str.lower`/`str.upper`/`str.strip` are modelled over ASCII
     (the character data of every question and keyword involved). -/

namespace CrmQuery

/-- JSON-like values as produced by `json.loads` and the Airtable client. -/
inductive JVal where
  | null
  | bool (b : Bool)
  | num (n : Int)
  | str (s : String)
  | arr (xs : List JVal)
  | obj (kvs : List (String × JVal))
deriving Repr

/-- Python substring test (`pat in s`) on character lists: `listPrefixOf pat s`
is true when `pat` is an initial segment of `s`. -/
def listPrefixOf : List Char → List Char → Bool
  | [], _ => true
  | _ :: _, [] => false
  | a :: as, b :: bs => a == b && listPrefixOf as bs

/-- Python substring test on character lists: `pat` occurs somewhere in `s`. -/
def listContains (pat : List Char) : List Char → Bool
  | [] => listPrefixOf pat []
  | c :: cs => listPrefixOf pat (c :: cs) || listContains pat cs

/-- Python `pat in s` for strings. -/
def containsStr (s pat : String) : Bool :=
  listContains pat.data s.data

/-- Python `str.lower` (ASCII). -/
def lowerStr (s : String) : String :=
  ⟨s.data.map Char.toLower⟩

/-- Python `str.upper` (ASCII). -/
def upperStr (s : String) : String :=
  ⟨s.data.map Char.toUpper⟩

/-- Python `str.strip`: whitespace removed from both ends. -/
def trimStr (s : String) : String :=
  ⟨((s.data.dropWhile Char.isWhitespace).reverse.dropWhile Char.isWhitespace).reverse⟩

/-- Python `str.startswith pat`. -/
def startsWithStr (s pat : String) : Bool :=
  listPrefixOf pat.data s.data

/-- Python slice `s[n:]`. -/
def dropStr (s : String) (n : Nat) : String :=
  ⟨s.data.drop n⟩

/-- Python slice `s[:-n]` (for `n ≤ len s`; empty result when the slice crosses). -/
def dropRightStr (s : String) (n : Nat) : String :=
  ⟨s.data.take (s.data.length - n)⟩

/-- Python `not s` for strings (`''` is falsy). -/
def strFalsy (s : String) : Bool :=
  s.data.isEmpty

example : containsStr "drop table applications" "table" = true := by decide
example : containsStr "hello" "photo" = false := by decide
example : lowerStr "DROP Table" = "drop table" := by decide
example : trimStr "  x y  " = "x y" := by decide

/-- Python regex word character (`\w`), over the ASCII inputs in scope. -/
def isWordChar (c : Char) : Bool :=
  c.isAlphanum || c == '_'

/-- Numeric value of a digit run. -/
def digitsToNat (cs : List Char) : Nat :=
  cs.foldl (fun n c => 10 * n + (c.toNat - 48)) 0

/-- Scanner for `re.findall(r"\b(\d+)\b", s)`: maximal digit runs whose
neighbours (when present) are not word characters. The first argument says
whether the previous character was a word character; the second is the digit
run currently open (reversed), `none` when no valid run is open. -/
def findNumbersAux : Bool → Option (List Char) → List Char → List Nat
  | _, none, [] => []
  | _, some run, [] => [digitsToNat run.reverse]
  | _, some run, c :: cs =>
    if c.isDigit then findNumbersAux true (some (c :: run)) cs
    else if isWordChar c then findNumbersAux true none cs
    else digitsToNat run.reverse :: findNumbersAux false none cs
  | prevWord, none, c :: cs =>
    if c.isDigit && !prevWord then findNumbersAux true (some [c]) cs
    else findNumbersAux (isWordChar c) none cs

/-- `re.findall(r"\b(\d+)\b", question)` as used at query.py:157, with each
match already read as a number (`int(numbers[0])` only ever parses digits). -/
def findNumbers (s : String) : List Nat :=
  findNumbersAux false none s.data

example : findNumbers "past 10 events, top 3" = [10, 3] := by decide
example : findNumbers "top5" = [] := by decide

/-- Python `dict.get(k)` on an association list (first binding wins; keys are
unique in the dicts the code builds, so first = last). -/
def dictGet? (kvs : List (String × JVal)) (k : String) : Option JVal :=
  (kvs.find? (fun p => p.1 == k)).map (·.2)

/-- Python `dict.get(k, d)`. -/
def dictGetD (kvs : List (String × JVal)) (k : String) (d : JVal) : JVal :=
  (dictGet? kvs k).getD d

/-- Python `d[k] = v`: replace the binding of `k` if present, else append. -/
def dictSet (kvs : List (String × JVal)) (k : String) (v : JVal) : List (String × JVal) :=
  match kvs with
  | [] => [(k, v)]
  | (k0, v0) :: rest =>
    if k0 == k then (k0, v) :: rest else (k0, v0) :: dictSet rest k v

/-- Python truthiness of a JSON value (`not data.get(...)`). -/
def JVal.falsy : JVal → Bool
  | .null => true
  | .bool b => !b
  | .num n => n == 0
  | .str s => strFalsy s
  | .arr xs => xs.isEmpty
  | .obj kvs => kvs.isEmpty

/-- Python `v == True` for a JSON value (`True == 1` holds in Python). -/
def jvalEqTrue : JVal → Bool
  | .bool b => b
  | .num n => n == 1
  | _ => false

/-- Python `v == k` for a JSON value against a string `k`. -/
def jvalEqStr (v : JVal) (k : String) : Bool :=
  match v with
  | .str s => s == k
  | _ => false

/-! ## parse_airtable_query (query.py:136-165) -/

/-- The `query_conditions` dict built by `parse_airtable_query`: at most the
keys `state`, `limit`, `order_by` (the latter only ever holds `"date"`). -/
structure AirtableConds where
  state : Option String := none
  limit : Option Nat := none
  order_by : Option String := none
deriving Repr, DecidableEq

/-- Python truthiness of the conditions dict (`if query_conditions:`,
query.py:215): nonempty means at least one key was set. -/
def condsTruthy (c : AirtableConds) : Bool :=
  c.state.isSome || c.limit.isSome || c.order_by.isSome

/-- The `state_abbrevs` table of query.py:142-149, in dict insertion order. -/
def stateAbbrevs : List (String × String) :=
  [("vermont", "VT"), ("vt", "VT"),
   ("massachusetts", "MA"), ("ma", "MA"),
   ("maine", "ME"), ("me", "ME"),
   ("new hampshire", "NH"), ("nh", "NH"),
   ("rhode island", "RI"), ("ri", "RI"),
   ("connecticut", "CT"), ("ct", "CT")]

/-- Words that make a standalone number an extracted limit (query.py:158). -/
def limitWords : List String :=
  ["past", "last", "top", "first", "recent"]

/-- Words that switch on date sorting (query.py:162). -/
def orderWords : List String :=
  ["recent", "past", "latest", "last"]

/-- `parse_airtable_query` (query.py:136-165): state filter from the first
matching entry of `stateAbbrevs`, limit from the first standalone number when
a limit word is present, date ordering when an order word is present. -/
def parse_airtable_query (question : String) : AirtableConds :=
  let ql := lowerStr question
  let state := ((stateAbbrevs.find? (fun p => containsStr ql p.1)).map (·.2))
  let limit :=
    match findNumbers question with
    | [] => none
    | n :: _ => if limitWords.any (fun w => containsStr ql w) then some n else none
  let order_by :=
    if orderWords.any (fun w => containsStr ql w) then some "date" else none
  { state := state, limit := limit, order_by := order_by }

example : parse_airtable_query "last 3 photos from Vermont" =
    { state := some "VT", limit := some 3, order_by := some "date" } := by decide
example : parse_airtable_query "all photos" =
    { state := none, limit := none, order_by := none } := by decide

/-! ## search_airtable (query.py:167-235) -/

/-- A raw record as returned by `pyairtable`'s `table.all()`:
`record["id"]` and `record.get("fields", {})`. -/
structure RawRecord where
  id : String
  fields : List (String × JVal)
deriving Repr

/-- A converted result row: a Python dict from field names to values. -/
abbrev Rec := List (String × JVal)

/-- `att.get('url', '')` for one element of a `Photo` list (query.py:207):
defined on dicts, an `AttributeError` on anything else. -/
def attUrl : JVal → Except Unit JVal
  | .obj kvs => .ok (dictGetD kvs "url" (.str ""))
  | _ => .error ()

/-- The list comprehension `[att.get('url', '') for att in value]`
(query.py:207): stops with the exception of the first non-dict element. -/
def attachmentUrls : List JVal → Except Unit (List JVal)
  | [] => .ok []
  | v :: vs => do
    let u ← attUrl v
    let us ← attachmentUrls vs
    .ok (u :: us)

/-- The per-field branch of query.py:205-209: the `Photo` key with a list
value is replaced by its url list; every other value is kept unchanged. -/
def convertFieldValue (k : String) (v : JVal) : Except Unit JVal :=
  if k == "Photo" then
    match v with
    | .arr xs => (attachmentUrls xs).map .arr
    | _ => .ok v
  else .ok v

/-- The field loop of query.py:202-209 folded over a start dict. -/
def convertFields (start : Rec) : List (String × JVal) → Except Unit Rec
  | [] => .ok start
  | (k, v) :: rest => do
    let v2 ← convertFieldValue k v
    convertFields (dictSet start k v2) rest

/-- query.py:198-210: one raw record converted to the consistent format
(`record_id` and `source` first, then the normalized fields). -/
def convertRecord (r : RawRecord) : Except Unit Rec :=
  convertFields [("record_id", .str r.id), ("source", .str "airtable")] r.fields

/-- All records converted in order (query.py:197). -/
def convertRecords : List RawRecord → Except Unit (List Rec)
  | [] => .ok []
  | r :: rs => do
    let x ← convertRecord r
    let xs ← convertRecords rs
    .ok (x :: xs)

/-- `r.get('State', '').upper()` (query.py:219): the default for a missing
key is `''`; a non-string value makes `.upper()` raise. -/
def stateKey (r : Rec) : Except Unit String :=
  match dictGet? r "State" with
  | none => .ok ""
  | some (.str s) => .ok (upperStr s)
  | some _ => .error ()

/-- The comprehension `[r for r in results if r.get('State', '').upper() ==
state_filter]` (query.py:219), with `state_filter` already uppercased. -/
def filterState (filt : String) : List Rec → Except Unit (List Rec)
  | [] => .ok []
  | r :: rs => do
    let k ← stateKey r
    let rest ← filterState filt rs
    .ok (if k == filt then r :: rest else rest)

/-- The state-filter step (query.py:217-220): only when `'state'` is a key
of the conditions; the filter value is uppercased once. -/
def applyStateFilter (c : AirtableConds) (rs : List Rec) : Except Unit (List Rec) :=
  match c.state with
  | none => .ok rs
  | some st => filterState (upperStr st) rs

/-- `x.get('Date of Event', '')`, the sort key of query.py:224; a non-string
value would make Python's comparisons raise (see `sortByDateDesc`). -/
def dateKey (r : Rec) : Except Unit String :=
  match dictGet? r "Date of Event" with
  | none => .ok ""
  | some (.str s) => .ok s
  | some _ => .error ()

/-- Stable insert of a keyed record into a descending-by-key list. -/
def insertDesc (p : String × Rec) : List (String × Rec) → List (String × Rec)
  | [] => [p]
  | q :: qs => if q.1 < p.1 then p :: q :: qs else q :: insertDesc p qs

/-- Stable insertion sort, descending by key. -/
def sortDesc : List (String × Rec) → List (String × Rec)
  | [] => []
  | p :: ps => insertDesc p (sortDesc ps)

/-- Key extraction for the whole list (CPython computes every sort key before
comparing any two). -/
def dateKeys : List Rec → Except Unit (List (String × Rec))
  | [] => .ok []
  | r :: rs => do
    let k ← dateKey r
    let ks ← dateKeys rs
    .ok ((k, r) :: ks)

/-- `results.sort(key=lambda x: x.get('Date of Event', ''), reverse=True)`
(query.py:224). A list of at most one element is never compared, so it never
raises whatever its key; otherwise a non-string key raises on comparison. -/
def sortByDateDesc (rs : List Rec) : Except Unit (List Rec) :=
  match rs with
  | [] => .ok []
  | [r] => .ok [r]
  | _ => do
    let ks ← dateKeys rs
    .ok ((sortDesc ks).map (·.2))

/-- The sort step (query.py:223-224): only when `order_by` was set to
`"date"`. -/
def applySort (c : AirtableConds) (rs : List Rec) : Except Unit (List Rec) :=
  if c.order_by == some "date" then sortByDateDesc rs else .ok rs

/-- The limit step, `results[:limit]` (query.py:227-228): only when a limit
was extracted; no limit means no truncation. -/
def applyLimit (c : AirtableConds) (rs : List Rec) : List Rec :=
  match c.limit with
  | some n => rs.take n
  | none => rs

/-- query.py:196-229: conversion of all fetched records, then — only when
the conditions dict is truthy — state filter, date sort, and limit. -/
def processRecords (raws : List RawRecord) (c : AirtableConds) : Except Unit (List Rec) := do
  let results ← convertRecords raws
  if condsTruthy c then
    let results ← applyStateFilter c results
    let results ← applySort c results
    .ok (applyLimit c results)
  else
    .ok results

/-! ## Environment, collaborators and the call trace -/

/-- One external backend interaction, recorded when the code actually
reaches the corresponding client call. -/
inductive Call where
  | llmCall
  | sqlExec (query : String)
  | airtableFetch
deriving Repr, DecidableEq

/-- Outcomes of the two possible `openai.ChatCompletion.create` calls of one
request: query generation (query.py:268) and answer formatting
(query.py:481): `.ok` is the returned message content, `.error` an API
exception caught by the surrounding handler. -/
structure Llm where
  gen : Except Unit String
  fmt : Except Unit String

/-- Process-wide configuration and the opaque collaborators' behaviour.
`conn` is the outcome of a successful `pymssql.connect` (none when
pymssql is missing, a variable is unset, or connecting raises);
`airtableData` is the outcome of `table.all()` when it is attempted. -/
structure Env where
  mssqlAvailable : Bool := false
  pyairtableAvailable : Bool := false
  sqlServer : Option String := none
  sqlDatabase : Option String := none
  sqlUsername : Option String := none
  sqlPassword : Option String := none
  airtableApiKey : Option String := none
  airtableBaseId : Option String := none
  airtableTableName : Option String := none
  openaiKey : Option Llm := none
  apiSecret : Option String := none
  conn : Option (String → Except String (List Rec)) := none
  airtableData : Except Unit (List RawRecord) := .error ()

/-- Python truthiness of `os.environ.get(var)`. -/
def optTruthy : Option String → Bool
  | none => false
  | some s => !(strFalsy s)

/-- `get_db_connection` (query.py:112-134): a connection exists only when
pymssql imported, all four variables are set, and connecting succeeds. -/
def get_db_connection (env : Env) : Option (String → Except String (List Rec)) :=
  if env.mssqlAvailable && optTruthy env.sqlServer && optTruthy env.sqlDatabase
      && optTruthy env.sqlUsername && optTruthy env.sqlPassword then
    env.conn
  else
    none

/-- The Airtable configuration check of query.py:170-179. -/
def airtableConfigured (env : Env) : Bool :=
  env.pyairtableAvailable && optTruthy env.airtableApiKey
    && optTruthy env.airtableBaseId && optTruthy env.airtableTableName

/-- `search_airtable` (query.py:167-235). Unconfigured paths return `[]`
without any fetch; a configured fetch is traced, and both a fetch failure
(after the retry with the encoded table name, folded into `airtableData`)
and any exception while converting or filtering are caught by the
function's own try/except, which returns `[]`. -/
def search_airtable (env : Env) (c : AirtableConds) : List Rec × List Call :=
  if airtableConfigured env then
    match env.airtableData with
    | .error _ => ([], [Call.airtableFetch])
    | .ok raws =>
      match processRecords raws c with
      | .ok rs => (rs, [Call.airtableFetch])
      | .error _ => ([], [Call.airtableFetch])
  else
    ([], [])

/-! ## SQL execution (query.py:319-430) -/

/-- The mock rows of `execute_sql_via_rest_mock` (query.py:319-365). -/
def mockApp45874 : Rec :=
  [("AppID", .num 45874), ("app_status", .str "Processed/Accepted"),
   ("dba", .str "Medina's Maintenance Services & Home Improvement"),
   ("city", .str "Roslindale"), ("state", .str "MA"),
   ("invoice_total", .num 642), ("rep", .str "Cochrane, Valerie"),
   ("source", .str "sql_server")]

/-- Mock city counts (query.py:340-346). -/
def mockCities : List Rec :=
  [[("city", .str "Boston"), ("count", .num 2500), ("source", .str "sql_server")],
   [("city", .str "Cambridge"), ("count", .num 1800), ("source", .str "sql_server")],
   [("city", .str "Worcester"), ("count", .num 1200), ("source", .str "sql_server")],
   [("city", .str "Springfield"), ("count", .num 800), ("source", .str "sql_server")],
   [("city", .str "Lowell"), ("count", .num 600), ("source", .str "sql_server")]]

/-- Mock default sample row (query.py:349-360). -/
def mockDefault : Rec :=
  [("AppID", .num 45874), ("app_status", .str "Processed/Accepted"),
   ("dba", .str "Sample Business"), ("city", .str "Boston"),
   ("state", .str "MA"), ("invoice_total", .num 500),
   ("rep", .str "Sample Rep"), ("source", .str "sql_server")]

/-- `execute_sql_via_rest_mock` (query.py:319-365): canned rows keyed on the
query text; its try/except never fires, so the error component is `none`. -/
def execute_sql_via_rest_mock (sql : String) : List Rec × Option String :=
  if containsStr sql "AppID" && containsStr sql "45874" then ([mockApp45874], none)
  else if containsStr (upperStr sql) "COUNT" then
    ([[("count", .num 20000), ("source", .str "sql_server")]], none)
  else if containsStr (upperStr sql) "TOP" && containsStr (lowerStr sql) "city" then
    (mockCities, none)
  else ([mockDefault], none)

/-- `execute_sql_via_rest` (query.py:367-412): with a live connection the
query is executed (traced) and each row is tagged `source = sql_server`; an
execution error falls back to the mock rows; with no connection the mock
rows are used directly. The Decimal/datetime conversions act on opaque
driver values and are absorbed into `conn`'s output. -/
def execute_sql_via_rest (env : Env) (sql : String) :
    (List Rec × Option String) × List Call :=
  match get_db_connection env with
  | some exec =>
    match exec sql with
    | .ok rows => ((rows.map (fun r => dictSet r "source" (.str "sql_server")), none),
                   [Call.sqlExec sql])
    | .error _ => (execute_sql_via_rest_mock sql, [Call.sqlExec sql])
  | none => (execute_sql_via_rest_mock sql, [])

/-- The query description produced by `text_to_sql` (query.py:237-317):
either the Airtable marker dict with its conditions, or a SQL text. -/
inductive QueryInfo where
  | airtable (conds : AirtableConds)
  | sql (query : String)
deriving Repr, DecidableEq

/-- `execute_query` (query.py:414-430): Airtable dicts go to
`search_airtable` (whose result, a list, is never `None`, so the error slot
stays `none`); everything else is executed as SQL. -/
def execute_query (env : Env) (qi : QueryInfo) :
    (List Rec × Option String) × List Call :=
  match qi with
  | .airtable conds =>
    let (rs, t) := search_airtable env conds
    ((rs, none), t)
  | .sql q => execute_sql_via_rest env q

/-! ## format_results (query.py:432-501) -/

/-- Python `str()` / `repr()` of JSON-derived values, for the f-strings of
query.py:454, 464 and the fallback dump (string escaping inside reprs is
elided: no value the claims touch needs it). -/
def pyRepr : JVal → String
  | .null => "None"
  | .bool b => if b then "True" else "False"
  | .num n => toString n
  | .str s => "'" ++ s ++ "'"
  | .arr xs => "[" ++ String.intercalate ", " (xs.attach.map (fun v => pyRepr v.1)) ++ "]"
  | .obj kvs =>
    "\x7b" ++
      String.intercalate ", "
        (kvs.attach.map (fun p => "'" ++ p.1.1 ++ "': " ++ pyRepr p.1.2)) ++ "\x7d"
decreasing_by
  · have := List.sizeOf_lt_of_mem v.2; simp_all; omega
  · obtain ⟨⟨k2, v2⟩, hm⟩ := p
    have := List.sizeOf_lt_of_mem hm
    simp_all [Prod.mk.sizeOf_spec]
    omega

/-- Python `str()` (top level: a bare string prints without quotes). -/
def pyStr : JVal → String
  | .str s => s
  | v => pyRepr v

/-- `json.dumps` of a JSON value (the `indent=2` layout and string escaping
are elided: the dumped text is only ever an opaque answer string). -/
def jsonDump : JVal → String
  | .null => "null"
  | .bool b => if b then "true" else "false"
  | .num n => toString n
  | .str s => "\"" ++ s ++ "\""
  | .arr xs => "[" ++ String.intercalate ", " (xs.attach.map (fun v => jsonDump v.1)) ++ "]"
  | .obj kvs =>
    "\x7b" ++
      String.intercalate ", "
        (kvs.attach.map (fun p => "\"" ++ p.1.1 ++ "\": " ++ jsonDump p.1.2)) ++ "\x7d"
decreasing_by
  · have := List.sizeOf_lt_of_mem v.2; simp_all; omega
  · obtain ⟨⟨k2, v2⟩, hm⟩ := p
    have := List.sizeOf_lt_of_mem hm
    simp_all [Prod.mk.sizeOf_spec]
    omega

/-- Digit grouping of Python's `f"{n:,}"` (comma every three digits). -/
def commaGroupAux : List Char → List Char
  | [] => []
  | c :: cs =>
    if cs.length % 3 == 0 && !cs.isEmpty then c :: ',' :: commaGroupAux cs
    else c :: commaGroupAux cs

/-- `f"{n:,}"` for an integer. -/
def formatThousands (n : Int) : String :=
  (if n < 0 then "-" else "") ++ ⟨commaGroupAux (toString n.natAbs).data⟩

/-- `f"The count is: {results[0]['count']:,}"` (query.py:445): the `,`
format spec accepts ints (and bools, which format as 1/0) and raises on
everything else, which the surrounding try turns into the dump fallback. -/
def formatCount : JVal → Except Unit String
  | .num n => .ok ("The count is: " ++ formatThousands n)
  | .bool b => .ok ("The count is: " ++ (if b then "1" else "0"))
  | _ => .error ()

/-- The `- key: value` lines of query.py:452-455 and 462-465, skipping the
internal fields. -/
def fieldLines (r : Rec) : String :=
  r.foldl
    (fun acc p =>
      if p.1 == "source" || p.1 == "record_id" then acc
      else acc ++ "- " ++ p.1 ++ ": " ++ pyStr p.2 ++ "\n")
    ""

/-- The numbered blocks of query.py:460-465. -/
def resultBlocks : Nat → List Rec → String
  | _, [] => ""
  | i, r :: rs =>
    "Result " ++ toString i ++ ":\n" ++ fieldLines r ++ "\n" ++ resultBlocks (i + 1) rs

/-- The multi-result text of query.py:458-468. -/
def multiResultText (results : List Rec) : String :=
  "Found " ++ toString results.length ++ " results:\n\n"
    ++ resultBlocks 1 (results.take 5)
    ++ (if results.length > 5 then
          "... and " ++ toString (results.length - 5) ++ " more results"
        else "")

/-- The offline branch of `format_results` (query.py:440-468), as an
`Except` whose error is any exception the surrounding try catches. -/
def format_results_nokey (results : List Rec) (q : String) : Except Unit String :=
  let ql := lowerStr q
  match results with
  | [] => .ok ""
  | r0 :: rest =>
    if containsStr ql "how many" || containsStr ql "count" then
      if (dictGet? r0 "count").isSome then
        formatCount (dictGetD r0 "count" .null)
      else .ok ("Found " ++ toString results.length ++ " records.")
    else if rest.isEmpty then
      .ok (trimStr ("Found 1 result:\n" ++ fieldLines r0))
    else
      .ok (trimStr (multiResultText results))

/-- The fallback of query.py:499-501: `f"Results: {json.dumps(results[:5],
indent=2)}"`. -/
def dumpFallback (results : List Rec) : String :=
  "Results: " ++ jsonDump (.arr ((results.take 5).map .obj))

/-- `format_results` (query.py:432-501) for a string question: empty results
short-circuit before the try; offline formatting falls back to the dump on
exception; with a key the delegate is called (traced) and its failure also
falls back to the dump. -/
def format_results (env : Env) (results : List Rec) (question : String) :
    String × List Call :=
  if results.isEmpty then ("No results found for your question.", [])
  else
    match env.openaiKey with
    | none =>
      match format_results_nokey results question with
      | .ok t => (t, [])
      | .error _ => (dumpFallback results, [])
    | some llm =>
      match llm.fmt with
      | .ok content => (trimStr content, [Call.llmCall])
      | .error _ => (dumpFallback results, [Call.llmCall])

/-! ## text_to_sql (query.py:237-317) -/

/-- The Airtable routing keywords of query.py:241. -/
def airtableKeywords : List String :=
  ["airtable", "air table", "photo", "photos", "crem photos",
   "event photo", "event", "events"]

/-- `any(keyword in question.lower() for keyword in airtable_keywords)`
(query.py:242). -/
def isAirtableQuestion (question : String) : Bool :=
  airtableKeywords.any (fun k => containsStr (lowerStr question) k)

/-- The default query of query.py:266 and of the exception fallback at
query.py:317. -/
def defaultQuery : String :=
  "SELECT TOP 5 * FROM Applications ORDER BY DateCreated DESC"

/-- The offline canned-template chain of query.py:251-266. -/
def cannedSql (question : String) : String :=
  let ql := lowerStr question
  if containsStr question "45874" then
    "SELECT * FROM Applications WHERE AppID = 45874"
  else if containsStr ql "count" then
    "SELECT COUNT(*) as count FROM Applications"
  else if containsStr ql "average" && containsStr ql "invoice" then
    "SELECT rep, AVG(invoice_total) as avg_invoice FROM Applications GROUP BY rep ORDER BY avg_invoice DESC"
  else if containsStr ql "rejected" || containsStr ql "denied" then
    "SELECT * FROM Applications WHERE app_status IN ('Rejected/Denied') ORDER BY DateCreated DESC"
  else if containsStr ql "balance" then
    "SELECT * FROM Applications WHERE invoice_balance > 0 ORDER BY invoice_balance DESC"
  else if containsStr ql "top" && containsStr ql "cities" then
    "SELECT TOP 10 city, COUNT(*) as count FROM Applications GROUP BY city ORDER BY count DESC"
  else defaultQuery

/-- The code-fence stripping of query.py:308-311 (`sql[6:-3]` / `sql[3:-3]`). -/
def stripFences (sql : String) : String :=
  if startsWithStr sql "```sql" then dropRightStr (dropStr sql 6) 3
  else if startsWithStr sql "```" then dropRightStr (dropStr sql 3) 3
  else sql

/-- `text_to_sql` (query.py:237-317). Airtable-keyword questions return the
Airtable marker with parsed conditions before any delegate call; without a
key the canned chain answers; with a key the delegate is called (traced) and
its text is trimmed, checked for the Airtable marker, fence-stripped and
returned, while a delegate exception falls back to the default query. -/
def text_to_sql (env : Env) (question : String) : QueryInfo × List Call :=
  let is_airtable := isAirtableQuestion question
  let conds := if is_airtable then parse_airtable_query question else {}
  if is_airtable then (.airtable conds, [])
  else
    match env.openaiKey with
    | none => (.sql (cannedSql question), [])
    | some llm =>
      match llm.gen with
      | .error _ => (.sql defaultQuery, [Call.llmCall])
      | .ok content =>
        let sql := trimStr content
        if containsStr sql "AIRTABLE_QUERY" || containsStr (lowerStr sql) "airtable" then
          (.airtable conds, [Call.llmCall])
        else
          (.sql (trimStr (stripFences sql)), [Call.llmCall])

/-! ## The POST handler (query.py:503-662) -/

/-- A serialized HTTP response: status code and the JSON object written. -/
structure HttpResponse where
  status : Nat
  body : List (String × JVal)
deriving Repr

/-- The visualization terms of query.py:637. -/
def visTerms : List String :=
  ["chart", "table", "show me", "photo", "photos"]

/-- `query_info.get('type', 'sql')` (query.py:641). -/
def typeTag : QueryInfo → String
  | .airtable _ => "airtable"
  | .sql _ => "sql"

/-- `query_info.get('query', str(query_info))` (query.py:642): both dict
shapes carry a `query` key (`"filtered"` for Airtable). -/
def queryField : QueryInfo → JVal
  | .airtable _ => .str "filtered"
  | .sql q => .str q

/-- The conditions dict as JSON, keys in the insertion order of
`parse_airtable_query`. -/
def encodeConds (c : AirtableConds) : JVal :=
  .obj ((match c.state with | some st => [("state", JVal.str st)] | none => [])
    ++ (match c.limit with | some n => [("limit", JVal.num n)] | none => [])
    ++ (match c.order_by with | some o => [("order_by", JVal.str o)] | none => []))

/-- The `query_info` dict as JSON (for the error body of query.py:627-630). -/
def encodeQueryInfo : QueryInfo → JVal
  | .airtable c => .obj [("type", .str "airtable"), ("query", .str "filtered"),
                         ("conditions", encodeConds c)]
  | .sql q => .obj [("type", .str "sql"), ("query", .str q)]

/-- query.py:615-655 for a truthy string question: generate, execute, and on
`error = None` (which `execute_query` always yields, see
`execute_query_error_none`) format and build the success body; `raw_results`
joins it only for visualization-term questions with a nonempty result set of
fewer than 1000 rows. -/
def processQuestion (env : Env) (q : String) : HttpResponse × List Call :=
  let (qi, t1) := text_to_sql env q
  let ((results, err), t2) := execute_query env qi
  match err with
  | some e =>
    ({ status := 500,
       body := [("error", .str ("Database error: " ++ e)),
                ("query_info", encodeQueryInfo qi)] },
     t1 ++ t2)
  | none =>
    let (answer, t3) := format_results env results q
    let include_raw := visTerms.any (fun w => containsStr (lowerStr q) w)
    let response : Rec :=
      [("answer", .str answer), ("query_type", .str (typeTag qi)),
       ("sql", queryField qi), ("results_count", .num results.length)]
    let response :=
      if include_raw && !results.isEmpty && results.length < 1000 then
        dictSet response "raw_results" (.arr (results.map .obj))
      else response
    ({ status := 200, body := response }, t1 ++ t2 ++ t3)

/-- query.py:615-662 for a truthy question that is not a string:
`text_to_sql` raises at `question.lower()` inside its try and falls back to
the default query before any delegate call; the query is executed and
formatted (the delegate formatting call still happens for nonempty results
when a key is set, query.py:481); then `question.lower()` at query.py:637
raises outside any inner try, so the outer handler answers 500 (its body
carries `str(e)`, abbreviated here). -/
def nonStringQuestion (env : Env) : HttpResponse × List Call :=
  let ((results, err), t2) := execute_query env (.sql defaultQuery)
  match err with
  | some e =>
    ({ status := 500,
       body := [("error", .str ("Database error: " ++ e)),
                ("query_info", encodeQueryInfo (.sql defaultQuery))] },
     t2)
  | none =>
    let t3 : List Call :=
      match env.openaiKey with
      | some _ => if results.isEmpty then [] else [Call.llmCall]
      | none => []
    ({ status := 500,
       body := [("error", .str "Server error: question has no attribute lower")] },
     t2 ++ t3)

/-- The configuration snapshot of query.py:548-562. -/
def testSnapshot (env : Env) : Rec :=
  [("pymssql_available", .bool env.mssqlAvailable),
   ("pyairtable_available", .bool env.pyairtableAvailable),
   ("sql_server", .str (env.sqlServer.getD "Not Set")),
   ("sql_database", .str (env.sqlDatabase.getD "Not Set")),
   ("sql_username", .str (env.sqlUsername.getD "Not Set")),
   ("sql_password", .str (if optTruthy env.sqlPassword then "***" else "Not Set")),
   ("airtable_api_key", .str (if optTruthy env.airtableApiKey then "Set" else "Not Set")),
   ("airtable_base_id", .str (env.airtableBaseId.getD "Not Set")),
   ("airtable_table", .str (env.airtableTableName.getD "Not Set")),
   ("openai_key", .str (if env.openaiKey.isSome then "Set" else "Not Set")),
   ("api_secret", .str (if optTruthy env.apiSecret then "Set" else "Not Set")),
   ("sql_connection_test", .str "Not Tested"),
   ("airtable_connection_test", .str "Not Tested")]

/-- The count query run by the test branch (query.py:575). -/
def testCountQuery : String :=
  "SELECT COUNT(*) as count FROM Applications"

/-- The `test: true` branch (query.py:547-602): configuration snapshot with
live SQL and Airtable connection probes (both traced when attempted),
answered with HTTP 200. -/
def handleTest (env : Env) : HttpResponse × List Call :=
  let base := testSnapshot env
  let (base, t1) :=
    if env.mssqlAvailable && optTruthy env.sqlServer && optTruthy env.sqlDatabase
        && optTruthy env.sqlUsername && optTruthy env.sqlPassword then
      match env.conn with
      | some exec =>
        match exec testCountQuery with
        | .ok rows =>
          match rows with
          | row :: _ =>
            match dictGet? row "count" with
            | some v =>
              (dictSet base "sql_connection_test"
                 (.str ("Success! Found " ++ pyStr v ++ " records")),
               [Call.sqlExec testCountQuery])
            | none =>
              (dictSet base "sql_connection_test" (.str "Error: KeyError: count"),
               [Call.sqlExec testCountQuery])
          | [] =>
            (dictSet base "sql_connection_test"
               (.str "Error: NoneType object is not subscriptable"),
             [Call.sqlExec testCountQuery])
        | .error e =>
          (dictSet base "sql_connection_test" (.str ("Error: " ++ e)),
           [Call.sqlExec testCountQuery])
      | none =>
        (dictSet base "sql_connection_test" (.str "Failed to create connection"), [])
    else (base, [])
  let (base, t2) :=
    if airtableConfigured env then
      let (rs, t) := search_airtable env {}
      (dictSet base "airtable_connection_test"
         (.str ("Success! Found " ++ toString rs.length ++ " records")), t)
    else (base, [])
  ({ status := 200, body := base }, t1 ++ t2)

/-- `data.get(k)` where `data` may be any JSON value: an `AttributeError`
(caught by the outer handler as a 500) when `data` is not a dict. -/
def dataGet (data : JVal) (k : String) : Except Unit (Option JVal) :=
  match data with
  | .obj kvs => .ok (dictGet? kvs k)
  | _ => .error ()

/-- `self.headers.get('X-API-Key') or data.get('api_key')` (query.py:535):
the dict lookup runs only when the header is missing or falsy. -/
def computeApiKey (headerKey : Option String) (data : JVal) :
    Except Unit (Option JVal) :=
  match headerKey with
  | some s => if strFalsy s then dataGet data "api_key" else .ok (some (.str s))
  | none => dataGet data "api_key"

/-- The generic 500 body of query.py:657-662 (it carries `str(e)`). -/
def serverError (msg : String) : HttpResponse :=
  { status := 500, body := [("error", .str ("Server error: " ++ msg))] }

/-- query.py:604-655: question extraction and dispatch (after auth and the
test check). -/
def handleQuestionPath (env : Env) (data : JVal) : HttpResponse × List Call :=
  match data with
  | .obj kvs =>
    let question := dictGetD kvs "question" (.str "")
    if question.falsy then
      ({ status := 400, body := [("error", .str "No question provided")] }, [])
    else
      match question with
      | .str q => processQuestion env q
      | _ => nonStringQuestion env
  | _ => (serverError "attribute error", [])

/-- The test-or-question dispatch after the API-key gate (query.py:547-655). -/
def afterAuth (env : Env) (data : JVal) : HttpResponse × List Call :=
  match dataGet data "test" with
  | .error _ => (serverError "attribute error", [])
  | .ok t =>
    if (t.map jvalEqTrue).getD false then handleTest env
    else handleQuestionPath env data

/-- An inbound POST: the `X-API-Key` header and the parsed body (`none`
when the body is not valid JSON, in which case `json.loads` raises). -/
structure Request where
  headerApiKey : Option String := none
  body : Option JVal := none

/-- `handler.do_POST` (query.py:528-662): body parse, API-key gate
(query.py:534-544: active only for a truthy configured secret; any
mismatch, including a missing key, answers 401), then the test branch or
the question pipeline. Every uncaught exception becomes the generic 500. -/
def do_POST (env : Env) (req : Request) : HttpResponse × List Call :=
  match req.body with
  | none => (serverError "invalid JSON body", [])
  | some data =>
    match computeApiKey req.headerApiKey data with
    | .error _ => (serverError "attribute error", [])
    | .ok apiKey =>
      let authorized :=
        match env.apiSecret with
        | some secret =>
          strFalsy secret
            || (match apiKey with | some v => jvalEqStr v secret | none => false)
        | none => true
      if authorized then afterAuth env data
      else ({ status := 401,
              body := [("error", .str "Unauthorized - Invalid API Key")] }, [])

/-! ## The record-store Intent Classifier (spec section 4.2) -/

/-- The Intent variants of spec section 3. -/
inductive Intent where
  | employeeLeaderboard
  | duplicateEventReport
  | groupedBarChartState
  | groupedBarChartSubmitter
  | recordListing
deriving Repr, DecidableEq

/-- Modelled from the spec: the record-store Intent Classifier of spec
section 4.2 is not part of src (the code under src only decides the backend,
query.py:240-248, and has no intent variants); its ordered first-match rules
are transcribed from the spec's words. -/
def classifyRecordStoreIntent (question : String) : Intent :=
  let ql := lowerStr question
  if containsStr ql "employee" &&
      (containsStr ql "most photos" || containsStr ql "most pictures"
        || containsStr ql "who has the most") then
    .employeeLeaderboard
  else if containsStr ql "event" &&
      (containsStr ql "more than once" || containsStr ql "repeated"
        || containsStr ql "duplicate") then
    .duplicateEventReport
  else if containsStr ql "bar chart" &&
      (containsStr ql "by state" || containsStr ql "state") then
    .groupedBarChartState
  else if containsStr ql "bar chart" &&
      (containsStr ql "employee last name" || containsStr ql "by employee") then
    .groupedBarChartSubmitter
  else
    .recordListing

/-- Requests used throughout: a plain question POST without header key. -/
def postQuestion (env : Env) (hk : Option String) (q : String) :
    HttpResponse × List Call :=
  do_POST env { headerApiKey := hk, body := some (.obj [("question", .str q)]) }

/-! ## Helper lemmas -/

theorem computeApiKey_obj (hk : Option String) (kvs : List (String × JVal)) :
    ∃ x, computeApiKey hk (.obj kvs) = .ok x := by
  cases hk with
  | none => exact ⟨_, rfl⟩
  | some s =>
    unfold computeApiKey
    by_cases h : strFalsy s <;> simp [h, dataGet]

theorem dictGet?_nil (k : String) : dictGet? [] k = none := rfl

theorem dictGet?_cons (k0 : String) (v0 : JVal) (rest : List (String × JVal))
    (k : String) :
    dictGet? ((k0, v0) :: rest) k
      = if (k0 == k) = true then some v0 else dictGet? rest k := by
  by_cases h : (k0 == k) = true <;> simp [dictGet?, List.find?, h]

theorem dictGet?_dictSet_self (kvs : List (String × JVal)) (k : String) (v : JVal) :
    dictGet? (dictSet kvs k v) k = some v := by
  induction kvs with
  | nil => simp [dictSet, dictGet?_cons]
  | cons p rest ih =>
    obtain ⟨k0, v0⟩ := p
    unfold dictSet
    by_cases h : (k0 == k) = true
    · have : k0 = k := by simpa using h
      subst this
      simp [dictGet?_cons]
    · simp [h, dictGet?_cons, ih]

theorem dictGet?_dictSet_ne (kvs : List (String × JVal)) (k k2 : String) (v : JVal)
    (h : (k2 == k) = false) :
    dictGet? (dictSet kvs k2 v) k = dictGet? kvs k := by
  induction kvs with
  | nil => simp [dictSet, dictGet?_cons, h, dictGet?_nil]
  | cons p rest ih =>
    obtain ⟨k0, v0⟩ := p
    unfold dictSet
    by_cases h0 : (k0 == k2) = true
    · have : k0 = k2 := by simpa using h0
      subst this
      simp [h0, dictGet?_cons, h]
    · simp [h0, dictGet?_cons, ih]

theorem containsStr_empty_false (pat : String) (c : Char) (cs : List Char)
    (hp : pat.data = c :: cs) (s : String) (hs : s.data = []) :
    containsStr s pat = false := by
  unfold containsStr
  rw [hs, hp]
  rfl

/-- A question whose lowering contains a nonempty pattern is itself truthy. -/
theorem strFalsy_false_of_contains (q : String) (pat : String) (c : Char)
    (cs : List Char) (hp : pat.data = c :: cs)
    (h : containsStr (lowerStr q) pat = true) :
    strFalsy q = false := by
  cases hd : q.data with
  | nil =>
    exfalso
    have : (lowerStr q).data = [] := by simp [lowerStr, hd]
    rw [containsStr_empty_false pat c cs hp (lowerStr q) this] at h
    exact Bool.false_ne_true h
  | cons a as => simp [strFalsy, hd]

/-! ## C3: EmployeeLeaderboard intent (spec-modelled) -/

/-- C3: every question containing "employee" and "most photos" (in its
lowercased text) is classified EmployeeLeaderboard, regardless of any other
content: the leaderboard rule is the first rule and its predicate is already
satisfied. -/
theorem C3_employee_most_photos_leaderboard (q : String)
    (h1 : containsStr (lowerStr q) "employee" = true)
    (h2 : containsStr (lowerStr q) "most photos" = true) :
    classifyRecordStoreIntent q = .employeeLeaderboard := by
  simp [classifyRecordStoreIntent, h1, h2]

/-- C3 witness: the theorem applied to a concrete question. -/
theorem C3_employee_most_photos_leaderboard_witness :
    classifyRecordStoreIntent "Which employee submitted the most photos in 2024?"
      = .employeeLeaderboard :=
  C3_employee_most_photos_leaderboard _ (by decide) (by decide)

/-! ## C5: malformed JSON body -/

/-- C5 counterexample: a request whose body is not valid JSON is answered
with HTTP 500 (the catch-all handler at query.py:657-662), not 400 as the
claim states. -/
theorem C5_malformed_json_counterexample :
    (do_POST {} { body := none }).1.status = 500 ∧
      ¬ (do_POST {} { body := none }).1.status = 400 := by
  constructor
  · rfl
  · intro h
    rw [show (do_POST {} { body := none }).1.status = 500 from rfl] at h
    exact absurd h (by decide)

/-- C5 (amended): for every environment and header, a POST whose body is not
valid JSON is answered with HTTP 500 carrying an `error` field, and no
backend call is made (`json.loads` raises before any processing and the
outer except replies). -/
theorem C5_malformed_json_500 (env : Env) (hk : Option String) :
    do_POST env { headerApiKey := hk, body := none }
      = (serverError "invalid JSON body", []) := rfl

/-! ## C7: result limits -/

/-- C7 counterexample: the word "all" does not override the limit to any
maximum (no limit at all is extracted from "all photos"), and with neither a
count phrase nor "all" no default limit of any value is applied ("photos
please" also extracts no limit). -/
theorem C7_counterexample :
    (¬ ∃ maxScan : Nat, (parse_airtable_query "all photos").limit = some maxScan) ∧
    (¬ ∃ dflt : Nat, (parse_airtable_query "photos please").limit = some dflt) := by
  constructor
  · rintro ⟨m, h⟩
    rw [show (parse_airtable_query "all photos").limit = none from by decide] at h
    cases h
  · rintro ⟨d, h⟩
    rw [show (parse_airtable_query "photos please").limit = none from by decide] at h
    cases h

/-- C7 (amended): a result limit exists only when the question contains a
standalone number and one of "past", "last", "top", "first", "recent", and
then it is the first such number; the word "all" plays no role and there is
no default: conditions without a limit leave the result list untruncated. -/
theorem C7_limit_characterization :
    (∀ q : String,
      (parse_airtable_query q).limit =
        match findNumbers q with
        | [] => none
        | n :: _ =>
          if limitWords.any (fun w => containsStr (lowerStr q) w) then some n
          else none) ∧
    (∀ (c : AirtableConds) (rs : List Rec), c.limit = none → applyLimit c rs = rs) := by
  constructor
  · intro q
    rfl
  · intro c rs h
    unfold applyLimit
    rw [h]

/-- C7 witness: the theorem applied to a concrete question and concrete
conditions. -/
theorem C7_limit_characterization_witness :
    (parse_airtable_query "top 3 photos").limit = some 3 ∧
      applyLimit { state := some "VT" } [mockDefault] = [mockDefault] := by
  constructor
  · rw [C7_limit_characterization.1]
    decide
  · exact C7_limit_characterization.2 { state := some "VT" } [mockDefault] rfl

/-! ## C2: attachment normalization -/

/-- The value the comprehension of query.py:207 produces for one mapping
element: its `url` entry, the empty string when absent. -/
def objUrlD : JVal → JVal
  | .obj kvs => dictGetD kvs "url" (.str "")
  | _ => .str ""

/-- C2 counterexample: an attachment list containing a plain URL string — a
shape the claim explicitly covers — raises (`att.get` on a `str`), instead
of never raising. -/
theorem C2_counterexample :
    attachmentUrls [JVal.str "http://example.com/a.jpg"] = .error () := rfl

/-- C2 (amended): the normalization at query.py:205-209 applies only to the
`Photo` key with a list value; a list whose elements are all mappings maps
each to its `url` entry with the empty string as default — kept, not
dropped, and with no http/https check; a list with any non-mapping element
raises (the enclosing try of `search_airtable` then returns `[]`); every
other key or value shape passes through unchanged. -/
theorem C2_attachment_normalization :
    (∀ xs : List JVal, (∀ x ∈ xs, ∃ kvs, x = JVal.obj kvs) →
        attachmentUrls xs = .ok (xs.map objUrlD)) ∧
    (∀ (xs : List JVal) (x : JVal), x ∈ xs → (∀ kvs, x ≠ JVal.obj kvs) →
        attachmentUrls xs = .error ()) ∧
    (∀ (k : String) (v : JVal),
        (k = "Photo" → ∀ ys, v ≠ JVal.arr ys) → convertFieldValue k v = .ok v) := by
  refine ⟨?_, ?_, ?_⟩
  · intro xs h
    induction xs with
    | nil => rfl
    | cons x rest ih =>
      obtain ⟨kvs, rfl⟩ := h x (List.mem_cons_self x rest)
      have hrest := ih (fun y hy => h y (List.mem_cons_of_mem _ hy))
      simp only [attachmentUrls, attUrl, hrest, List.map_cons]
      rfl
  · intro xs x hx hnot
    induction xs with
    | nil => cases hx
    | cons y rest ih =>
      rcases List.mem_cons.mp hx with rfl | hmem
      · cases x with
        | obj kvs => exact absurd rfl (hnot kvs)
        | null => rfl
        | bool b => rfl
        | num n => rfl
        | str s => rfl
        | arr xs2 => rfl
      · cases y with
        | obj kvs =>
          simp only [attachmentUrls, attUrl, ih hmem]
          rfl
        | null => rfl
        | bool b => rfl
        | num n => rfl
        | str s => rfl
        | arr xs2 => rfl
  · intro k v h
    unfold convertFieldValue
    by_cases hk : (k == "Photo") = true
    · have : k = "Photo" := by simpa using hk
      subst this
      cases v with
      | arr ys => exact absurd rfl (h rfl ys)
      | null => simp
      | bool b => simp
      | num n => simp
      | str s => simp
      | obj kvs => simp
    · simp [hk]

/-- C2 witness: the theorem applied to a two-element well-formed list (note
the kept empty string for the mapping without a url) and to a pass-through
field. -/
theorem C2_attachment_normalization_witness :
    attachmentUrls [JVal.obj [("url", JVal.str "http://e.com/p.jpg")], JVal.obj []]
        = .ok [JVal.str "http://e.com/p.jpg", JVal.str ""] ∧
      convertFieldValue "Event Name" (JVal.str "Gala") = .ok (JVal.str "Gala") := by
  constructor
  · have h := C2_attachment_normalization.1
      [JVal.obj [("url", JVal.str "http://e.com/p.jpg")], JVal.obj []]
      (by
        intro x hx
        simp at hx
        rcases hx with rfl | rfl
        · exact ⟨_, rfl⟩
        · exact ⟨_, rfl⟩)
    rw [h]
    rfl
  · exact C2_attachment_normalization.2.2 "Event Name" (JVal.str "Gala")
      (fun hk => absurd hk (by decide))

/-! ## C4: missing or empty question -/

/-- C4 counterexample: a well-formed JSON body with no `question` field but
`test: true` is answered with the HTTP 200 configuration snapshot (and, in
configured environments, the test branch does call the backends), not 400. -/
theorem C4_counterexample :
    (do_POST {} { body := some (.obj [("test", .bool true)]) }).1.status = 200 ∧
      ¬ (do_POST {} { body := some (.obj [("test", .bool true)]) }).1.status = 400 := by
  constructor
  · rfl
  · intro h
    rw [show (do_POST {} { body := some (.obj [("test", .bool true)]) }).1.status = 200
          from rfl] at h
    exact absurd h (by decide)

/-- C4 (amended): for a well-formed JSON object body that passes the
API-key gate and does not select the test branch, a missing or falsy
`question` is answered with HTTP 400, body `error: No question provided`,
and no external call is made. -/
theorem C4_missing_question_400 (env : Env) (hk : Option String)
    (kvs : List (String × JVal))
    (hauth : env.apiSecret = none ∨
      ∃ k, env.apiSecret = some k ∧ computeApiKey hk (.obj kvs) = .ok (some (.str k)))
    (htest : ∀ v, dictGet? kvs "test" = some v → jvalEqTrue v = false)
    (hq : ∀ v, dictGet? kvs "question" = some v → v.falsy = true) :
    do_POST env { headerApiKey := hk, body := some (.obj kvs) }
      = ({ status := 400, body := [("error", .str "No question provided")] }, []) := by
  obtain ⟨x, hx⟩ := computeApiKey_obj hk kvs
  have htest2 : (Option.map jvalEqTrue (dictGet? kvs "test")).getD false = false := by
    cases h : dictGet? kvs "test" with
    | none => rfl
    | some v => simpa using htest v h
  have hq2 : (dictGetD kvs "question" (.str "")).falsy = true := by
    unfold dictGetD
    cases h : dictGet? kvs "question" with
    | none => rfl
    | some v => simpa using hq v h
  have hbranch : afterAuth env (.obj kvs)
      = ({ status := 400, body := [("error", .str "No question provided")] }, []) := by
    simp only [afterAuth, dataGet, htest2, Bool.false_eq_true, if_false,
      handleQuestionPath, hq2, if_true]
  simp only [do_POST]
  rw [hx]
  rcases hauth with hnone | ⟨k, hs, hck⟩
  · simp only [hnone]
    exact hbranch
  · rw [hck] at hx
    cases hx
    simp only [hs, jvalEqStr, beq_self_eq_true, Bool.or_true, if_true]
    exact hbranch

/-- C4 witness: the theorem applied to the empty JSON object body. -/
theorem C4_missing_question_400_witness :
    do_POST {} { body := some (.obj []) }
      = ({ status := 400, body := [("error", .str "No question provided")] }, []) :=
  C4_missing_question_400 {} none [] (Or.inl rfl)
    (fun v h => by cases h) (fun v h => by cases h)

/-! ## C1: no safety gate before executing generated SQL -/

/-- A fully configured environment whose text-generation delegate echoes the
question as a DROP statement and whose SQL Server connection accepts every
statement. -/
def envC1 : Env :=
  { mssqlAvailable := true, sqlServer := some "server", sqlDatabase := some "db",
    sqlUsername := some "user", sqlPassword := some "pw",
    openaiKey := some { gen := .ok "DROP TABLE Applications", fmt := .ok "done" },
    conn := some (fun _ => .ok []) }

/-- The failing request of end-to-end scenario 3. -/
def reqDrop : Request :=
  { body := some (.obj [("question", .str "DROP TABLE Applications")]) }

/-- C1: there is no safety gate anywhere in src — when the delegate returns
the text `DROP TABLE Applications`, `text_to_sql` passes it through
unfiltered, the handler executes it against the relational backend (the
`sqlExec` call is in the trace), and the response is HTTP 200, not the 400
rejection the spec requires. -/
theorem C1_generated_drop_executed :
    (do_POST envC1 reqDrop).1.status = 200 ∧
      Call.sqlExec "DROP TABLE Applications" ∈ (do_POST envC1 reqDrop).2 := by
  constructor
  · rfl
  · decide

/-! ## C8: backend failures replaced by fallbacks, not reported -/

/-- A configured environment whose every SQL execution raises. -/
def envSqlFail : Env :=
  { mssqlAvailable := true, sqlServer := some "server", sqlDatabase := some "db",
    sqlUsername := some "user", sqlPassword := some "pw",
    conn := some (fun _ => .error "Connection reset by peer") }

/-- A configured environment whose Airtable fetch raises. -/
def envAirFail : Env :=
  { pyairtableAvailable := true, airtableApiKey := some "key",
    airtableBaseId := some "base", airtableTableName := some "CREM Photos",
    airtableData := .error () }

/-- C8 counterexample: with a relational backend that fails on every query,
the handler answers HTTP 200 with one fabricated mock row and no error
field — the failure is not reported as a 500 with the original message. -/
theorem C8_counterexample :
    (postQuestion envSqlFail none "how many applications are there").1.status = 200 ∧
      ¬ (postQuestion envSqlFail none "how many applications are there").1.status = 500 ∧
      dictGet? (postQuestion envSqlFail none "how many applications are there").1.body
          "results_count" = some (.num 1) ∧
      dictGet? (postQuestion envSqlFail none "how many applications are there").1.body
          "error" = none := by
  refine ⟨rfl, ?_, rfl, rfl⟩
  intro h
  rw [show (postQuestion envSqlFail none "how many applications are there").1.status = 200
        from rfl] at h
  exact absurd h (by decide)

/-- The mock executor never reports an error (query.py:362). -/
theorem mock_error_none (sql : String) : (execute_sql_via_rest_mock sql).2 = none := by
  unfold execute_sql_via_rest_mock
  split_ifs <;> rfl

/-- `execute_query` never returns an error in the embedding: the Airtable
result is a list (never `None`), a failing live execution falls back to the
mock rows, and the mock never errors. The 500 `Database error` branch of
query.py:622-631 is therefore unreachable. -/
theorem execute_query_error_none (env : Env) (qi : QueryInfo) :
    (execute_query env qi).1.2 = none := by
  cases qi with
  | airtable conds => rfl
  | sql q =>
    show (execute_sql_via_rest env q).1.2 = none
    unfold execute_sql_via_rest
    cases hc : get_db_connection env with
    | none => exact mock_error_none q
    | some exec =>
      dsimp only
      cases he : exec q with
      | ok rows => rfl
      | error e => exact mock_error_none q

/-- C8 (amended): backend failures are swallowed, not reported: a failing
relational execution falls back to the mock rows (with the `sqlExec` call
still traced and the error slot cleared), a failing record-store fetch
yields the empty list, and `execute_query` never returns an error, so the
500 branch for backend errors is unreachable. -/
theorem C8_backend_failures_swallowed :
    (∀ (env : Env) (sql : String) (exec : String → Except String (List Rec)) (e : String),
        get_db_connection env = some exec → exec sql = .error e →
        execute_sql_via_rest env sql
          = (execute_sql_via_rest_mock sql, [Call.sqlExec sql])) ∧
    (∀ (env : Env) (c : AirtableConds), airtableConfigured env = true →
        env.airtableData = .error () →
        search_airtable env c = ([], [Call.airtableFetch])) ∧
    (∀ (env : Env) (qi : QueryInfo), (execute_query env qi).1.2 = none) := by
  refine ⟨?_, ?_, fun env qi => execute_query_error_none env qi⟩
  · intro env sql exec e hconn hexec
    unfold execute_sql_via_rest
    rw [hconn]
    dsimp only
    rw [hexec]
  · intro env c hcfg hdata
    unfold search_airtable
    rw [hcfg, hdata]
    rfl

/-- C8 witness: the theorem applied to the two failing environments and a
concrete query. -/
theorem C8_backend_failures_swallowed_witness :
    execute_sql_via_rest envSqlFail "SELECT COUNT(*) as count FROM Applications"
        = (execute_sql_via_rest_mock "SELECT COUNT(*) as count FROM Applications",
           [Call.sqlExec "SELECT COUNT(*) as count FROM Applications"]) ∧
      search_airtable envAirFail {} = ([], [Call.airtableFetch]) ∧
      (execute_query {} (.sql defaultQuery)).1.2 = none :=
  ⟨C8_backend_failures_swallowed.1 envSqlFail _ _ "Connection reset by peer" rfl rfl,
   C8_backend_failures_swallowed.2.1 envAirFail {} rfl rfl,
   C8_backend_failures_swallowed.2.2 {} (.sql defaultQuery)⟩

/-! ## C9: response shape of a successful question request -/

/-- C9 counterexample: a successful question request in the default
environment answers 200 with the query text under the key `sql`, no `query`
key, no `continuation_token` key, and (without a visualization term) no
`raw_results` key. -/
theorem C9_counterexample :
    (postQuestion {} none "list the applications").1.status = 200 ∧
      dictGet? (postQuestion {} none "list the applications").1.body "query" = none ∧
      dictGet? (postQuestion {} none "list the applications").1.body
          "continuation_token" = none ∧
      dictGet? (postQuestion {} none "list the applications").1.body "raw_results"
        = none ∧
      dictGet? (postQuestion {} none "list the applications").1.body "sql"
        = some (.str defaultQuery) :=
  ⟨rfl, rfl, rfl, rfl, rfl⟩

/-! ## Reduction lemmas for the question pipeline -/

theorem search_airtable_trace (env : Env) (c : AirtableConds) :
    (search_airtable env c).2 = [] ∨ (search_airtable env c).2 = [Call.airtableFetch] := by
  unfold search_airtable
  split
  · cases hdata : env.airtableData with
    | error e => right; rfl
    | ok raws =>
      dsimp only
      cases hproc : processRecords raws c with
      | ok rs => right; rfl
      | error e => right; rfl
  · left; rfl

theorem format_results_trace (env : Env) (rs : List Rec) (q : String) :
    (format_results env rs q).2 = [] ∨ (format_results env rs q).2 = [Call.llmCall] := by
  unfold format_results
  split
  · left; rfl
  · cases env.openaiKey with
    | none =>
      dsimp only
      cases h : format_results_nokey rs q with
      | ok t => left; rfl
      | error e => left; rfl
    | some llm =>
      dsimp only
      cases h : llm.fmt with
      | ok t => right; rfl
      | error e => right; rfl

theorem text_to_sql_airtable (env : Env) (q : String)
    (h : isAirtableQuestion q = true) :
    text_to_sql env q = (.airtable (parse_airtable_query q), []) := by
  simp [text_to_sql, h]

/-- A plain question POST with no configured secret reduces to the question
pipeline. -/
theorem do_POST_question (env : Env) (hk : Option String) (q : String)
    (hsec : env.apiSecret = none) (hq : strFalsy q = false) :
    postQuestion env hk q = processQuestion env q := by
  obtain ⟨x, hx⟩ := computeApiKey_obj hk [("question", JVal.str q)]
  simp only [postQuestion, do_POST]
  rw [hx]
  simp only [hsec, if_true]
  have h2 : afterAuth env (.obj [("question", JVal.str q)])
      = handleQuestionPath env (.obj [("question", JVal.str q)]) := rfl
  rw [h2]
  simp only [handleQuestionPath]
  have hfq : (dictGetD [("question", JVal.str q)] "question" (.str "")).falsy
      = strFalsy q := rfl
  rw [hfq, hq]
  simp only [Bool.false_eq_true, if_false]
  rw [show dictGetD [("question", JVal.str q)] "question" (.str "") = .str q from rfl]

/-- The success shape of `processQuestion` (the error branch is
unreachable, `execute_query_error_none`). -/
theorem processQuestion_success (env : Env) (q : String) (qi : QueryInfo)
    (t1 : List Call) (results : List Rec) (t2 : List Call) (ans : String)
    (t3 : List Call)
    (ht : text_to_sql env q = (qi, t1))
    (he : (execute_query env qi).1.1 = results)
    (ht2 : (execute_query env qi).2 = t2)
    (hf : format_results env results q = (ans, t3)) :
    processQuestion env q =
      ({ status := 200,
         body :=
           if visTerms.any (fun w => containsStr (lowerStr q) w) && !results.isEmpty
               && results.length < 1000 then
             dictSet [("answer", JVal.str ans), ("query_type", JVal.str (typeTag qi)),
                      ("sql", queryField qi), ("results_count", JVal.num results.length)]
               "raw_results" (.arr (results.map JVal.obj))
           else
             [("answer", JVal.str ans), ("query_type", JVal.str (typeTag qi)),
              ("sql", queryField qi), ("results_count", JVal.num results.length)] },
       t1 ++ t2 ++ t3) := by
  have herr : (execute_query env qi).1.2 = none := execute_query_error_none env qi
  unfold processQuestion
  rw [ht]
  dsimp only
  rcases hq : execute_query env qi with ⟨⟨results2, err2⟩, t2b⟩
  rw [hq] at he ht2 herr
  dsimp only at he ht2 herr
  subst he ht2 herr
  dsimp only
  rw [hf]

/-! ## C6: photo/event questions route to the record store -/

/-- C6: every question containing the keyword "photo" or "event" routes to
the record-store backend: the response reports `query_type = "airtable"`
with HTTP 200 and no relational query is ever executed. -/
theorem C6_record_store_routing (env : Env) (hk : Option String) (q : String)
    (hsec : env.apiSecret = none)
    (hc : containsStr (lowerStr q) "photo" = true
        ∨ containsStr (lowerStr q) "event" = true) :
    (postQuestion env hk q).1.status = 200 ∧
      dictGet? (postQuestion env hk q).1.body "query_type" = some (.str "airtable") ∧
      ∀ s, Call.sqlExec s ∉ (postQuestion env hk q).2 := by
  have hair : isAirtableQuestion q = true := by
    rcases hc with h | h
    · exact List.any_eq_true.mpr ⟨"photo", by decide, h⟩
    · exact List.any_eq_true.mpr ⟨"event", by decide, h⟩
  have hq : strFalsy q = false := by
    rcases hc with h | h
    · exact strFalsy_false_of_contains q "photo" 'p' ['h', 'o', 't', 'o'] rfl h
    · exact strFalsy_false_of_contains q "event" 'e' ['v', 'e', 'n', 't'] rfl h
  rw [do_POST_question env hk q hsec hq]
  rcases hs : search_airtable env (parse_airtable_query q) with ⟨rs, tr⟩
  have he : execute_query env (.airtable (parse_airtable_query q)) = ((rs, none), tr) := by
    unfold execute_query
    dsimp only
    rw [hs]
  rcases hf : format_results env rs q with ⟨ans, t3⟩
  have hpq := processQuestion_success env q (.airtable (parse_airtable_query q)) []
    rs tr ans t3 (text_to_sql_airtable env q hair) (by rw [he]) (by rw [he]) hf
  rw [hpq]
  refine ⟨rfl, ?_, ?_⟩
  · dsimp only
    split
    · rw [dictGet?_dictSet_ne _ "query_type" "raw_results" _ rfl]
      rfl
    · rfl
  · intro s
    have htr := search_airtable_trace env (parse_airtable_query q)
    rw [hs] at htr
    have hft := format_results_trace env rs q
    rw [hf] at hft
    dsimp only at htr hft
    rcases htr with rfl | rfl <;> rcases hft with rfl | rfl <;> simp

/-- C6 witness: the theorem applied to a concrete photo question. -/
theorem C6_record_store_routing_witness :
    (postQuestion {} none "show me the photos").1.status = 200 ∧
      dictGet? (postQuestion {} none "show me the photos").1.body "query_type"
        = some (.str "airtable") ∧
      ∀ s, Call.sqlExec s ∉ (postQuestion {} none "show me the photos").2 :=
  C6_record_store_routing {} none "show me the photos" rfl (Or.inl (by decide))

/-- C9 (amended): every successful plain question request answers HTTP 200
with the fields `answer`, `query_type`, `sql` (holding the query text or the
`filtered` marker, under the key `sql`, not `query`), and `results_count`;
there is never a `query` or `continuation_token` field, and `raw_results`
appears only when the question carries a visualization term. -/
theorem C9_response_shape (env : Env) (hk : Option String) (q : String)
    (hsec : env.apiSecret = none) (hq : strFalsy q = false) :
    (postQuestion env hk q).1.status = 200 ∧
      dictGet? (postQuestion env hk q).1.body "query_type"
        = some (.str (typeTag (text_to_sql env q).1)) ∧
      dictGet? (postQuestion env hk q).1.body "sql"
        = some (queryField (text_to_sql env q).1) ∧
      (dictGet? (postQuestion env hk q).1.body "answer").isSome = true ∧
      (dictGet? (postQuestion env hk q).1.body "results_count").isSome = true ∧
      dictGet? (postQuestion env hk q).1.body "query" = none ∧
      dictGet? (postQuestion env hk q).1.body "continuation_token" = none ∧
      ((dictGet? (postQuestion env hk q).1.body "raw_results").isSome = true →
        visTerms.any (fun w => containsStr (lowerStr q) w) = true) := by
  rw [do_POST_question env hk q hsec hq]
  rcases ht : text_to_sql env q with ⟨qi, t1⟩
  dsimp only
  rcases hf : format_results env (execute_query env qi).1.1 q with ⟨ans, t3⟩
  have hpq := processQuestion_success env q qi t1 ((execute_query env qi).1.1)
    ((execute_query env qi).2) ans t3 ht rfl rfl hf
  rw [hpq]
  dsimp only
  by_cases hb : (visTerms.any (fun w => containsStr (lowerStr q) w)
      && !((execute_query env qi).1.1).isEmpty
      && ((execute_query env qi).1.1).length < 1000) = true
  · rw [if_pos hb]
    refine ⟨rfl, ?_, ?_, ?_, ?_, ?_, ?_, ?_⟩
    · rw [dictGet?_dictSet_ne _ "query_type" "raw_results" _ rfl]
      rfl
    · rw [dictGet?_dictSet_ne _ "sql" "raw_results" _ rfl]
      rfl
    · rw [dictGet?_dictSet_ne _ "answer" "raw_results" _ rfl]
      rfl
    · rw [dictGet?_dictSet_ne _ "results_count" "raw_results" _ rfl]
      rfl
    · rw [dictGet?_dictSet_ne _ "query" "raw_results" _ rfl]
      rfl
    · rw [dictGet?_dictSet_ne _ "continuation_token" "raw_results" _ rfl]
      rfl
    · intro _
      simp only [Bool.and_eq_true] at hb
      exact hb.1.1
  · rw [if_neg hb]
    refine ⟨rfl, rfl, rfl, rfl, rfl, rfl, rfl, ?_⟩
    intro h
    rw [show dictGet?
        [("answer", JVal.str ans), ("query_type", JVal.str (typeTag qi)),
         ("sql", queryField qi),
         ("results_count", JVal.num ((execute_query env qi).1.1).length)]
        "raw_results" = none from rfl] at h
    exact absurd h (by decide)

/-- C9 witness: the theorem applied to a concrete question in the default
environment. -/
theorem C9_response_shape_witness :
    (postQuestion {} none "how many applications").1.status = 200 ∧
      dictGet? (postQuestion {} none "how many applications").1.body "query" = none := by
  have h := C9_response_shape {} none "how many applications" rfl rfl
  exact ⟨h.1, h.2.2.2.2.2.1⟩

/-! ## C10: the state filter is sound -/

theorem parse_state_mem (q : String) (st : String)
    (h : (parse_airtable_query q).state = some st) :
    st = "VT" ∨ st = "MA" ∨ st = "ME" ∨ st = "NH" ∨ st = "RI" ∨ st = "CT" := by
  unfold parse_airtable_query at h
  dsimp only at h
  rcases ho : stateAbbrevs.find? (fun p => containsStr (lowerStr q) p.1) with _ | p
  · rw [ho] at h
    cases h
  · rw [ho] at h
    simp only [Option.map_some'] at h
    have hmem := List.mem_of_find?_eq_some ho
    fin_cases hmem <;> simp_all

theorem filterState_mem (filt : String) (rs : List Rec) (out : List Rec) (r : Rec)
    (h : filterState filt rs = .ok out) (hr : r ∈ out) :
    ∃ k, stateKey r = .ok k ∧ (k == filt) = true := by
  induction rs generalizing out with
  | nil =>
    injection h with h
    subst h
    cases hr
  | cons r0 rest ih =>
    cases hk : stateKey r0 with
    | error e =>
      have : filterState filt (r0 :: rest) = .error e := by
        unfold filterState
        rw [hk]
        rfl
      rw [this] at h
      cases h
    | ok k0 =>
      cases hrest : filterState filt rest with
      | error e =>
        have : filterState filt (r0 :: rest) = .error e := by
          unfold filterState
          rw [hk]
          show filterState filt rest >>= _ = _
          rw [hrest]
          rfl
        rw [this] at h
        cases h
      | ok out0 =>
        have heq : filterState filt (r0 :: rest)
            = .ok (if (k0 == filt) = true then r0 :: out0 else out0) := by
          unfold filterState
          rw [hk]
          show filterState filt rest >>= _ = _
          rw [hrest]
          rfl
        rw [heq] at h
        injection h with h
        subst h
        by_cases hkf : (k0 == filt) = true
        · rw [if_pos hkf] at hr
          rcases List.mem_cons.mp hr with rfl | hmem
          · exact ⟨k0, hk, hkf⟩
          · exact ih out0 hrest hmem
        · rw [if_neg hkf] at hr
          exact ih out0 hrest hr

theorem insertDesc_mem (p x : String × Rec) (l : List (String × Rec))
    (h : x ∈ insertDesc p l) : x = p ∨ x ∈ l := by
  induction l with
  | nil =>
    rcases List.mem_cons.mp h with rfl | h2
    · exact Or.inl rfl
    · cases h2
  | cons y ys ih =>
    unfold insertDesc at h
    split at h
    · rcases List.mem_cons.mp h with rfl | h2
      · exact Or.inl rfl
      · exact Or.inr h2
    · rcases List.mem_cons.mp h with rfl | h2
      · exact Or.inr (List.mem_cons_self _ _)
      · rcases ih h2 with h3 | h3
        · exact Or.inl h3
        · exact Or.inr (List.mem_cons_of_mem _ h3)

theorem sortDesc_mem (x : String × Rec) (l : List (String × Rec))
    (h : x ∈ sortDesc l) : x ∈ l := by
  induction l with
  | nil => cases h
  | cons p ps ih =>
    unfold sortDesc at h
    rcases insertDesc_mem p x _ h with rfl | h2
    · exact List.mem_cons_self _ _
    · exact List.mem_cons_of_mem _ (ih h2)

theorem dateKeys_mem (rs : List Rec) (ks : List (String × Rec)) (k : String) (r : Rec)
    (h : dateKeys rs = .ok ks) (hm : (k, r) ∈ ks) : r ∈ rs := by
  induction rs generalizing ks with
  | nil =>
    injection h with h
    subst h
    cases hm
  | cons r0 rest ih =>
    cases hk : dateKey r0 with
    | error e =>
      have : dateKeys (r0 :: rest) = .error e := by
        unfold dateKeys
        rw [hk]
        rfl
      rw [this] at h
      cases h
    | ok k0 =>
      cases hrest : dateKeys rest with
      | error e =>
        have : dateKeys (r0 :: rest) = .error e := by
          unfold dateKeys
          rw [hk]
          show dateKeys rest >>= _ = _
          rw [hrest]
          rfl
        rw [this] at h
        cases h
      | ok ks0 =>
        have heq : dateKeys (r0 :: rest) = .ok ((k0, r0) :: ks0) := by
          unfold dateKeys
          rw [hk]
          show dateKeys rest >>= _ = _
          rw [hrest]
          rfl
        rw [heq] at h
        injection h with h
        subst h
        rcases List.mem_cons.mp hm with hpair | hmem
        · injection hpair with h1 h2
          subst h2
          exact List.mem_cons_self _ _
        · exact List.mem_cons_of_mem _ (ih ks0 hrest hmem)

theorem sortByDateDesc_mem (rs out : List Rec) (r : Rec)
    (h : sortByDateDesc rs = .ok out) (hr : r ∈ out) : r ∈ rs := by
  cases rs with
  | nil =>
    injection h with h
    subst h
    cases hr
  | cons a tail =>
    cases tail with
    | nil =>
      injection h with h
      subst h
      exact hr
    | cons b tail2 =>
      cases hks : dateKeys (a :: b :: tail2) with
      | error e =>
        have : sortByDateDesc (a :: b :: tail2) = .error e := by
          unfold sortByDateDesc
          show dateKeys (a :: b :: tail2) >>= _ = _
          rw [hks]
          rfl
        rw [this] at h
        cases h
      | ok ks =>
        have heq : sortByDateDesc (a :: b :: tail2)
            = .ok ((sortDesc ks).map (·.2)) := by
          unfold sortByDateDesc
          show dateKeys (a :: b :: tail2) >>= _ = _
          rw [hks]
          rfl
        rw [heq] at h
        injection h with h
        subst h
        rcases List.mem_map.mp hr with ⟨p, hp, hp2⟩
        have hpks : p ∈ ks := sortDesc_mem p ks hp
        subst hp2
        exact dateKeys_mem _ ks p.1 p.2 hks (by rwa [Prod.mk.eta])

theorem applyLimit_mem (c : AirtableConds) (rs : List Rec) (r : Rec)
    (h : r ∈ applyLimit c rs) : r ∈ rs := by
  unfold applyLimit at h
  cases hl : c.limit with
  | none =>
    rw [hl] at h
    exact h
  | some n =>
    rw [hl] at h
    exact List.mem_of_mem_take h

theorem applySort_mem (c : AirtableConds) (rs out : List Rec) (r : Rec)
    (h : applySort c rs = .ok out) (hr : r ∈ out) : r ∈ rs := by
  unfold applySort at h
  split at h
  · exact sortByDateDesc_mem rs out r h hr
  · injection h with h
    subst h
    exact hr

/-- C10: when a state filter is extracted from the question, every record
returned by the record-store search carries a `State` field whose uppercased
value is the extracted two-letter code — records without a `State` field (or
with a non-matching one) are excluded. -/
theorem C10_state_filter_sound (env : Env) (q : String) (st : String) (r : Rec)
    (hst : (parse_airtable_query q).state = some st)
    (hr : r ∈ (search_airtable env (parse_airtable_query q)).1) :
    ∃ v, dictGet? r "State" = some (.str v) ∧ upperStr v = st := by
  have hcodes := parse_state_mem q st hst
  have hupper : upperStr st = st := by
    rcases hcodes with rfl | rfl | rfl | rfl | rfl | rfl <;> rfl
  have hnonempty : st ≠ "" := by
    rcases hcodes with rfl | rfl | rfl | rfl | rfl | rfl <;> decide
  -- unpack search_airtable
  unfold search_airtable at hr
  split at hr
  case isFalse => cases hr
  case isTrue hcfg =>
    cases hdata : env.airtableData with
    | error e =>
      rw [hdata] at hr
      cases hr
    | ok raws =>
      rw [hdata] at hr
      dsimp only at hr
      cases hproc : processRecords raws (parse_airtable_query q) with
      | error e =>
        rw [hproc] at hr
        cases hr
      | ok rs =>
        rw [hproc] at hr
        dsimp only at hr
        -- unpack processRecords
        have htruthy : condsTruthy (parse_airtable_query q) = true := by
          simp [condsTruthy, hst]
        cases hconv : convertRecords raws with
        | error e =>
          have : processRecords raws (parse_airtable_query q) = .error e := by
            unfold processRecords
            rw [hconv]
            rfl
          rw [this] at hproc
          cases hproc
        | ok results =>
          cases hfil : applyStateFilter (parse_airtable_query q) results with
          | error e =>
            have : processRecords raws (parse_airtable_query q) = .error e := by
              unfold processRecords
              rw [hconv]
              show (if condsTruthy (parse_airtable_query q) = true then _ else _ :
                  Except Unit (List Rec)) = _
              rw [htruthy]
              show applyStateFilter (parse_airtable_query q) results >>= _ = _
              rw [hfil]
              rfl
            rw [this] at hproc
            cases hproc
          | ok r1 =>
            cases hsort : applySort (parse_airtable_query q) r1 with
            | error e =>
              have : processRecords raws (parse_airtable_query q) = .error e := by
                unfold processRecords
                rw [hconv]
                show (if condsTruthy (parse_airtable_query q) = true then _ else _ :
                    Except Unit (List Rec)) = _
                rw [htruthy]
                show applyStateFilter (parse_airtable_query q) results >>= _ = _
                rw [hfil]
                show applySort (parse_airtable_query q) r1 >>= _ = _
                rw [hsort]
                rfl
              rw [this] at hproc
              cases hproc
            | ok r2 =>
              have heq : processRecords raws (parse_airtable_query q)
                  = .ok (applyLimit (parse_airtable_query q) r2) := by
                unfold processRecords
                rw [hconv]
                show (if condsTruthy (parse_airtable_query q) = true then _ else _ :
                    Except Unit (List Rec)) = _
                rw [htruthy]
                show applyStateFilter (parse_airtable_query q) results >>= _ = _
                rw [hfil]
                show applySort (parse_airtable_query q) r1 >>= _ = _
                rw [hsort]
                rfl
              rw [heq] at hproc
              injection hproc with hproc
              subst hproc
              have hr1 : r ∈ r1 :=
                applySort_mem _ r1 r2 r hsort (applyLimit_mem _ r2 r hr)
              -- the filter step
              have hfil2 : filterState (upperStr st) results = .ok r1 := by
                unfold applyStateFilter at hfil
                rw [hst] at hfil
                exact hfil
              obtain ⟨k, hkey, hbeq⟩ := filterState_mem (upperStr st) results r1 r hfil2 hr1
              have hk : k = st := by
                have := eq_of_beq hbeq
                rw [hupper] at this
                exact this
              subst hk
              -- read the State field off the record
              unfold stateKey at hkey
              cases hget : dictGet? r "State" with
              | none =>
                rw [hget] at hkey
                injection hkey with hkey
                exact absurd hkey.symm hnonempty
              | some v =>
                cases v with
                | str s =>
                  rw [hget] at hkey
                  injection hkey with hkey
                  exact ⟨s, rfl, hkey⟩
                | null => rw [hget] at hkey; cases hkey
                | bool b => rw [hget] at hkey; cases hkey
                | num n => rw [hget] at hkey; cases hkey
                | arr xs => rw [hget] at hkey; cases hkey
                | obj kvs => rw [hget] at hkey; cases hkey

/-- A small configured record store for the C10 witness. -/
def envAir : Env :=
  { pyairtableAvailable := true, airtableApiKey := some "key",
    airtableBaseId := some "base", airtableTableName := some "CREM Photos",
    airtableData := .ok
      [{ id := "rec1", fields := [("State", .str "VT"), ("Event Name", .str "Gala")] },
       { id := "rec2", fields := [("State", .str "MA")] }] }

/-- C10 witness: the theorem applied to the first (and only) record the
search returns for a Vermont question. -/
theorem C10_state_filter_sound_witness :
    ∃ v, dictGet? [("record_id", .str "rec1"), ("source", .str "airtable"),
        ("State", .str "VT"), ("Event Name", .str "Gala")] "State"
      = some (.str v) ∧ upperStr v = "VT" :=
  C10_state_filter_sound envAir "photos from vermont" "VT" _ rfl (List.Mem.head _)

end CrmQuery
